import Mathlib

/-!
Verification of the newsletter SQS processor
(`src/lambdas/src/newsletter-sqs-processor/app/newsletter_sqs_processor_lambda.py`).

The DynamoDB subscribers table is modelled as a list of subscriber records;
the `email-index` GSI query is a filter on the `email` attribute, `update_item`
rewrites the records matching the given primary key `id`, and `put_item`
inserts (or, per DynamoDB semantics, replaces on `id` collision).  The engine
clock (`datetime.utcnow().timestamp()`), the `uuid4()` generator and a possible
store exception are passed in explicitly, one environment per processed
message.  The JSON/pydantic decoding layer is abstracted as a parse outcome
attached to each SQS record (decode error, validation error, or a well-typed
`OperationMessage`).
-/

namespace Newsletter

/-- `OperationMessage` pydantic model: a validated queue message. -/
structure OperationMessage where
  operation : String
  email : String
  name : Option String
  ip_address : String
  user_agent : String
  timestamp : Int
deriving Repr, DecidableEq

/-- A DynamoDB item of the subscribers table.  `id` is the primary key and is
always present; the remaining attributes may be absent (`status` is read with
`.get('status', 'inactive')` in the source). -/
structure Subscriber where
  id : String
  email : String
  name : Option String
  status : Option String
  subscribed_at : Option Int
  updated_at : Option Int
  ip_address : Option String
  user_agent : Option String
deriving Repr, DecidableEq

/-- The subscribers table. -/
abbrev Store := List Subscriber

/-- `query_subscriber_by_email`: query the `email-index` GSI and return
`items[0] if items else None`. -/
def query_subscriber_by_email (store : Store) (email : String) : Option Subscriber :=
  (store.filter (fun s => s.email == email)).head?

/-- `subscribers_table.update_item(Key={'id': id}, ...)`: rewrite the records
whose primary key equals `id` with the given field update. -/
def update_item (store : Store) (id : String) (f : Subscriber → Subscriber) : Store :=
  store.map (fun s => if s.id == id then f s else s)

/-- `subscribers_table.put_item(Item=item)`: DynamoDB put replaces the item
with the same primary key if one exists, otherwise inserts. -/
def put_item (store : Store) (item : Subscriber) : Store :=
  if store.any (fun s => s.id == item.id) then
    store.map (fun s => if s.id == item.id then item else s)
  else
    store ++ [item]

/-- `process_subscribe_operation`.  `current_timestamp` is the engine clock
read at the top of the function; `fresh_id` is the value `str(uuid4())` would
produce in the create branch.  The second component counts store writes. -/
def process_subscribe_operation (message : OperationMessage) (current_timestamp : Int)
    (fresh_id : String) (store : Store) : Store × Nat :=
  match query_subscriber_by_email store message.email with
  | some existing_subscriber =>
    let subscriber_id := existing_subscriber.id
    let current_status := existing_subscriber.status.getD "inactive"
    if current_status == "inactive" then
      (update_item store subscriber_id
        (fun s => { s with status := some "active", updated_at := some current_timestamp }), 1)
    else
      (update_item store subscriber_id
        (fun s => { s with updated_at := some current_timestamp }), 1)
  | none =>
    (put_item store
      { id := fresh_id
        email := message.email
        name := message.name
        status := some "active"
        subscribed_at := some current_timestamp
        updated_at := some current_timestamp
        ip_address := some message.ip_address
        user_agent := some message.user_agent }, 1)

/-- `process_unsubscribe_operation`.  The second component counts store
writes. -/
def process_unsubscribe_operation (message : OperationMessage) (current_timestamp : Int)
    (store : Store) : Store × Nat :=
  match query_subscriber_by_email store message.email with
  | some existing_subscriber =>
    (update_item store existing_subscriber.id
      (fun s => { s with status := some "inactive", updated_at := some current_timestamp }), 1)
  | none => (store, 0)

/-- Outcome of `json.loads(body)` followed by `OperationMessage(**data)`:
either `json.loads` raises (caught by the generic `except Exception`), or
pydantic raises `ValidationError`, or a validated message is produced. -/
inductive ParseResult where
  | jsonError (err : String)
  | validationError (err : String)
  | ok (msg : OperationMessage)
deriving Repr, DecidableEq

/-- One record of the SQS event: its `receiptHandle` and the decode outcome of
its `body`. -/
structure SQSRecord where
  receiptHandle : Option String
  body : ParseResult
deriving Repr, DecidableEq

/-- Per-message environment: the engine clock at processing time, the uuid the
create branch would generate, and an optional DynamoDB exception raised by the
store calls of this message (`none` = the store succeeds). -/
structure Env where
  now : Int
  fresh_id : String
  store_error : Option String
deriving Repr

/-- One element of the handler's `failed_messages` list. -/
structure FailedMessage where
  receipt_handle : Option String
  error : String
deriving Repr, DecidableEq

/-- The handler loop's mutable state: `processed_count`, `failed_count`,
`failed_messages` and the table contents. -/
structure HandlerState where
  processed : Nat
  failed : Nat
  failed_messages : List FailedMessage
  store : Store
deriving Repr, DecidableEq

/-- The body of the per-record `for` loop of `lambda_handler`, including its
`try`/`except` structure: decode errors and store exceptions append a failure
entry; an unrecognized operation is counted failed and skipped with
`continue` (no failure entry); a processed message runs the matching
operation. -/
def handle_record (env : Env) (st : HandlerState) (record : SQSRecord) : HandlerState :=
  match record.body with
  | ParseResult.jsonError e =>
    { st with
      failed := st.failed + 1
      failed_messages := st.failed_messages ++
        [{ receipt_handle := record.receiptHandle, error := e }] }
  | ParseResult.validationError e =>
    { st with
      failed := st.failed + 1
      failed_messages := st.failed_messages ++
        [{ receipt_handle := record.receiptHandle, error := e }] }
  | ParseResult.ok msg =>
    if msg.operation == "subscribe" then
      match env.store_error with
      | some e =>
        { st with
          failed := st.failed + 1
          failed_messages := st.failed_messages ++
            [{ receipt_handle := record.receiptHandle, error := e }] }
      | none =>
        { st with
          processed := st.processed + 1
          store := (process_subscribe_operation msg env.now env.fresh_id st.store).1 }
    else if msg.operation == "unsubscribe" then
      match env.store_error with
      | some e =>
        { st with
          failed := st.failed + 1
          failed_messages := st.failed_messages ++
            [{ receipt_handle := record.receiptHandle, error := e }] }
      | none =>
        { st with
          processed := st.processed + 1
          store := (process_unsubscribe_operation msg env.now st.store).1 }
    else
      { st with failed := st.failed + 1 }

/-- The handler's `for record in event.get('Records', [])` loop; `idx` indexes
the per-message environments. -/
def run_records (env : Nat → Env) (idx : Nat) (records : List SQSRecord)
    (st : HandlerState) : HandlerState :=
  match records with
  | [] => st
  | r :: rs => run_records env (idx + 1) rs (handle_record (env idx) st r)

/-- The dictionary returned by `lambda_handler`. -/
structure HandlerResult where
  statusCode : Nat
  processed : Nat
  failed : Nat
  failed_messages : List FailedMessage
deriving Repr, DecidableEq

/-- `lambda_handler`: process every record of the event and return the result
dictionary, together with the final table contents. -/
def lambda_handler (env : Nat → Env) (records : List SQSRecord) (store : Store) :
    HandlerResult × Store :=
  let final := run_records env 0 records
    { processed := 0, failed := 0, failed_messages := [], store := store }
  ({ statusCode := 200
     processed := final.processed
     failed := final.failed
     failed_messages := final.failed_messages }, final.store)

theorem process_subscribe_absent (message : OperationMessage) (t : Int)
    (fresh_id : String) (store : Store)
    (habsent : query_subscriber_by_email store message.email = none)
    (hfresh : ∀ s ∈ store, s.id ≠ fresh_id) :
    process_subscribe_operation message t fresh_id store =
      (store ++
        [{ id := fresh_id
           email := message.email
           name := message.name
           status := some "active"
           subscribed_at := some t
           updated_at := some t
           ip_address := some message.ip_address
           user_agent := some message.user_agent }], 1) := by
  have hany : store.any (fun s => s.id == fresh_id) = false := by
    simp only [List.any_eq_false]
    intro s hs
    simpa using hfresh s hs
  simp [process_subscribe_operation, habsent, put_item, hany]

/-- C3: a subscribe intent whose email resolves to no existing record creates
exactly one new record, with the fresh id, status `active`, `subscribed_at`
and `updated_at` both set to the engine's processing time, and the intent's
`ip_address` and `user_agent` copied into the record. -/
theorem c3_subscribe_absent_creates (message : OperationMessage) (t : Int)
    (fresh_id : String) (store : Store)
    (habsent : query_subscriber_by_email store message.email = none)
    (hfresh : ∀ s ∈ store, s.id ≠ fresh_id) :
    process_subscribe_operation message t fresh_id store =
      (store ++
        [{ id := fresh_id
           email := message.email
           name := message.name
           status := some "active"
           subscribed_at := some t
           updated_at := some t
           ip_address := some message.ip_address
           user_agent := some message.user_agent }], 1) :=
  process_subscribe_absent message t fresh_id store habsent hfresh

/-- Witness for C3 at a concrete input: subscribing a fresh email against the
empty store. -/
theorem c3_subscribe_absent_creates_witness :
    process_subscribe_operation
      ⟨"subscribe", "a@x.com", some "A", "1.1.1.1", "UA", 1000⟩ 500 "u1" [] =
      ([⟨"u1", "a@x.com", some "A", some "active", some 500, some 500,
         some "1.1.1.1", some "UA"⟩], 1) :=
  c3_subscribe_absent_creates
    (⟨"subscribe", "a@x.com", some "A", "1.1.1.1", "UA", 1000⟩ : OperationMessage)
    500 "u1" [] (by decide) (by decide)

/-- C4: a subscribe intent whose email resolves to an existing Inactive record
updates that record in place (by its `id`) to status `active` with
`updated_at` set to the engine time, creates no new record, and leaves
`subscribed_at` and every other field of every record untouched. -/
theorem c4_subscribe_inactive_reactivates (message : OperationMessage) (t : Int)
    (fresh_id : String) (store : Store) (s : Subscriber)
    (hfound : query_subscriber_by_email store message.email = some s)
    (hinactive : s.status = some "inactive") :
    process_subscribe_operation message t fresh_id store =
      (update_item store s.id
        (fun r => { r with status := some "active", updated_at := some t }), 1) ∧
    (process_subscribe_operation message t fresh_id store).1.length = store.length := by
  refine ⟨?_, ?_⟩ <;>
    simp [process_subscribe_operation, hfound, hinactive, update_item]

/-- Witness for C4 at a concrete input: reactivating an inactive subscriber. -/
theorem c4_subscribe_inactive_reactivates_witness :
    process_subscribe_operation ⟨"subscribe", "a@x.com", some "A", "ip2", "ua2", 9⟩ 7 "f"
        [⟨"u1", "a@x.com", some "A", some "inactive", some 100, some 100,
          some "ip", some "ua"⟩] =
      (update_item
        [⟨"u1", "a@x.com", some "A", some "inactive", some 100, some 100,
          some "ip", some "ua"⟩] "u1"
        (fun r => { r with status := some "active", updated_at := some 7 }), 1) ∧
    (process_subscribe_operation ⟨"subscribe", "a@x.com", some "A", "ip2", "ua2", 9⟩ 7 "f"
        [⟨"u1", "a@x.com", some "A", some "inactive", some 100, some 100,
          some "ip", some "ua"⟩]).1.length = 1 :=
  c4_subscribe_inactive_reactivates
    (⟨"subscribe", "a@x.com", some "A", "ip2", "ua2", 9⟩ : OperationMessage) 7 "f"
    [⟨"u1", "a@x.com", some "A", some "inactive", some 100, some 100, some "ip", some "ua"⟩]
    (⟨"u1", "a@x.com", some "A", some "inactive", some 100, some 100, some "ip",
      some "ua"⟩ : Subscriber)
    (by decide) rfl

/-- C5: a subscribe intent whose email resolves to an existing Active record
performs a single store write that modifies only `updated_at`: status,
`subscribed_at`, email, name, `ip_address` and `user_agent` of every record
are unchanged, and no record is added or removed. -/
theorem c5_subscribe_active_touches_timestamp (message : OperationMessage) (t : Int)
    (fresh_id : String) (store : Store) (s : Subscriber)
    (hfound : query_subscriber_by_email store message.email = some s)
    (hactive : s.status = some "active") :
    process_subscribe_operation message t fresh_id store =
      (update_item store s.id (fun r => { r with updated_at := some t }), 1) := by
  simp [process_subscribe_operation, hfound, hactive, update_item]

/-- Witness for C5 at a concrete input: re-subscribing an active subscriber. -/
theorem c5_subscribe_active_touches_timestamp_witness :
    process_subscribe_operation ⟨"subscribe", "a@x.com", some "A", "ip2", "ua2", 9⟩ 7 "f"
        [⟨"u1", "a@x.com", some "A", some "active", some 100, some 100,
          some "ip", some "ua"⟩] =
      (update_item
        [⟨"u1", "a@x.com", some "A", some "active", some 100, some 100,
          some "ip", some "ua"⟩] "u1"
        (fun r => { r with updated_at := some 7 }), 1) :=
  c5_subscribe_active_touches_timestamp
    (⟨"subscribe", "a@x.com", some "A", "ip2", "ua2", 9⟩ : OperationMessage) 7 "f"
    [⟨"u1", "a@x.com", some "A", some "active", some 100, some 100, some "ip", some "ua"⟩]
    (⟨"u1", "a@x.com", some "A", some "active", some 100, some 100, some "ip",
      some "ua"⟩ : Subscriber)
    (by decide) rfl

/-- C1 (counterexample): an unsubscribe intent for an email whose record is
already Inactive is not a no-op: the engine performs one store write and the
store state changes (`updated_at` is rewritten and status is re-set). -/
theorem c1_unsubscribe_inactive_counterexample :
    (process_unsubscribe_operation
        (⟨"unsubscribe", "a@x.com", none, "ip", "ua", 3⟩ : OperationMessage) 200
        [⟨"u1", "a@x.com", some "A", some "inactive", some 100, some 100,
          some "ip", some "ua"⟩]).2 = 1 ∧
    (process_unsubscribe_operation
        (⟨"unsubscribe", "a@x.com", none, "ip", "ua", 3⟩ : OperationMessage) 200
        [⟨"u1", "a@x.com", some "A", some "inactive", some 100, some 100,
          some "ip", some "ua"⟩]).1 ≠
      [⟨"u1", "a@x.com", some "A", some "inactive", some 100, some 100,
        some "ip", some "ua"⟩] := by
  decide

/-- C1 (amended): an unsubscribe intent whose email resolves to no record
performs zero store writes and leaves the store unchanged; an unsubscribe
intent whose email resolves to an existing record — even an already-Inactive
one — performs exactly one update write, setting that record's status to
`inactive` and its `updated_at` to the engine time. -/
theorem c1_unsubscribe_noop_only_when_absent (message : OperationMessage) (t : Int)
    (store : Store) :
    (query_subscriber_by_email store message.email = none →
      process_unsubscribe_operation message t store = (store, 0)) ∧
    (∀ s : Subscriber, query_subscriber_by_email store message.email = some s →
      process_unsubscribe_operation message t store =
        (update_item store s.id
          (fun r => { r with status := some "inactive", updated_at := some t }), 1)) := by
  constructor
  · intro h
    simp [process_unsubscribe_operation, h]
  · intro s h
    simp [process_unsubscribe_operation, h]

/-- Witness for C1's amended theorem, discharging both hypotheses at concrete
inputs: an absent email against a one-record store, and an inactive record for
the same email. -/
theorem c1_unsubscribe_noop_only_when_absent_witness :
    process_unsubscribe_operation
        (⟨"unsubscribe", "b@x.com", none, "ip", "ua", 3⟩ : OperationMessage) 200
        [⟨"u1", "a@x.com", some "A", some "inactive", some 100, some 100,
          some "ip", some "ua"⟩] =
      ([⟨"u1", "a@x.com", some "A", some "inactive", some 100, some 100,
         some "ip", some "ua"⟩], 0) ∧
    process_unsubscribe_operation
        (⟨"unsubscribe", "a@x.com", none, "ip", "ua", 3⟩ : OperationMessage) 200
        [⟨"u1", "a@x.com", some "A", some "inactive", some 100, some 100,
          some "ip", some "ua"⟩] =
      (update_item
        [⟨"u1", "a@x.com", some "A", some "inactive", some 100, some 100,
          some "ip", some "ua"⟩] "u1"
        (fun r => { r with status := some "inactive", updated_at := some 200 }), 1) :=
  ⟨(c1_unsubscribe_noop_only_when_absent
      (⟨"unsubscribe", "b@x.com", none, "ip", "ua", 3⟩ : OperationMessage) 200
      [⟨"u1", "a@x.com", some "A", some "inactive", some 100, some 100,
        some "ip", some "ua"⟩]).1 (by decide),
   (c1_unsubscribe_noop_only_when_absent
      (⟨"unsubscribe", "a@x.com", none, "ip", "ua", 3⟩ : OperationMessage) 200
      [⟨"u1", "a@x.com", some "A", some "inactive", some 100, some 100,
        some "ip", some "ua"⟩]).2
     (⟨"u1", "a@x.com", some "A", some "inactive", some 100, some 100,
       some "ip", some "ua"⟩ : Subscriber) (by decide)⟩

/-- C8: the records the engine writes are independent of the producer-side
`timestamp` field of the intent: with the same engine clock, candidate fresh
id and store state, processing a message whose `timestamp` is replaced by any
other value yields exactly the same store and write count, for both subscribe
and unsubscribe. -/
theorem c8_producer_timestamp_ignored (message : OperationMessage) (t2 : Int)
    (now : Int) (fresh_id : String) (store : Store) :
    process_subscribe_operation { message with timestamp := t2 } now fresh_id store =
      process_subscribe_operation message now fresh_id store ∧
    process_unsubscribe_operation { message with timestamp := t2 } now store =
      process_unsubscribe_operation message now store :=
  ⟨rfl, rfl⟩

/-- Sequential replay of one subscribe intent: each application reads the
engine clock and draws a candidate fresh id, so the replay is driven by a
list of (engine timestamp, candidate uuid) pairs. -/
def subscribeMany (message : OperationMessage) (envs : List (Int × String))
    (store : Store) : Store :=
  envs.foldl (fun st e => (process_subscribe_operation message e.1 e.2 st).1) store

/-- The engine timestamp of the last application of a replayed intent. -/
def lastTimestamp (t0 : Int) (rest : List (Int × String)) : Int :=
  rest.foldl (fun _ e => e.1) t0

theorem foldl_some_timestamp (rest : List (Int × String)) (t : Int) :
    rest.foldl (fun _ e => some e.1) (some t) =
      some (rest.foldl (fun _ e => e.1) t) := by
  induction rest generalizing t with
  | nil => rfl
  | cons e rest ih => exact ih e.1

theorem subscribeMany_after_create (message : OperationMessage) (fresh_id : String)
    (store : Store) (rest : List (Int × String)) (rec : Subscriber)
    (habsent : store.filter (fun s => s.email == message.email) = [])
    (hfresh : ∀ s ∈ store, s.id ≠ fresh_id)
    (hid : rec.id = fresh_id) (hemail : rec.email = message.email)
    (hstatus : rec.status = some "active") :
    subscribeMany message rest (store ++ [rec]) =
      store ++ [{ rec with
        updated_at := rest.foldl (fun _ e => some e.1) rec.updated_at }] := by
  induction rest generalizing rec with
  | nil => rfl
  | cons e rest ih =>
    have hquery : query_subscriber_by_email (store ++ [rec]) message.email = some rec := by
      simp [query_subscriber_by_email, List.filter_append, habsent, hemail]
    have hstep : process_subscribe_operation message e.1 e.2 (store ++ [rec]) =
        (store ++ [{ rec with updated_at := some e.1 }], 1) := by
      simp only [process_subscribe_operation, hquery, hstatus]
      rw [if_neg (by decide)]
      simp only [update_item, List.map_append, List.map_cons, List.map_nil]
      rw [List.map_congr_left (fun s hs => if_neg ?_)]
      · simp [hstatus]
      · simp [hid, hfresh s hs]
    show subscribeMany message rest
        (process_subscribe_operation message e.1 e.2 (store ++ [rec])).1 = _
    rw [hstep]
    exact ih { rec with updated_at := some e.1 } hid hemail hstatus

/-- C2: replaying one subscribe intent N ≥ 1 times for a previously-absent
email leaves exactly one record for that email: status `active`,
`subscribed_at` equal to the engine timestamp of the first application,
`updated_at` equal to the engine timestamp of the last application. -/
theorem c2_subscribe_replay_idempotent (message : OperationMessage) (store : Store)
    (t0 : Int) (fresh_id : String) (rest : List (Int × String))
    (habsent : store.filter (fun s => s.email == message.email) = [])
    (hfresh : ∀ s ∈ store, s.id ≠ fresh_id) :
    (subscribeMany message ((t0, fresh_id) :: rest) store).filter
        (fun s => s.email == message.email) =
      [{ id := fresh_id
         email := message.email
         name := message.name
         status := some "active"
         subscribed_at := some t0
         updated_at := some (lastTimestamp t0 rest)
         ip_address := some message.ip_address
         user_agent := some message.user_agent }] := by
  have hq : query_subscriber_by_email store message.email = none := by
    simp [query_subscriber_by_email, habsent]
  have hfirst := process_subscribe_absent message t0 fresh_id store hq hfresh
  show ((subscribeMany message rest
      (process_subscribe_operation message t0 fresh_id store).1)).filter _ = _
  rw [hfirst]
  rw [subscribeMany_after_create message fresh_id store rest _ habsent hfresh rfl rfl rfl]
  simp [List.filter_append, habsent, foldl_some_timestamp, lastTimestamp]

/-- Witness for C2 at a concrete input: two replays against the empty store,
engine timestamps 1 then 2. -/
theorem c2_subscribe_replay_idempotent_witness :
    (subscribeMany (⟨"subscribe", "a@x.com", some "A", "ip", "ua", 9⟩ : OperationMessage)
        [(1, "u1"), (2, "u2")] []).filter (fun s => s.email == "a@x.com") =
      [⟨"u1", "a@x.com", some "A", some "active", some 1, some 2,
        some "ip", some "ua"⟩] :=
  c2_subscribe_replay_idempotent
    (⟨"subscribe", "a@x.com", some "A", "ip", "ua", 9⟩ : OperationMessage) [] 1 "u1"
    [(2, "u2")] (by decide) (by decide)

/-- C9: when the email index holds more than one record for an email, the
lookup silently returns the first record of the result list, and both
subscribe and unsubscribe update by that first record's `id` only — no error
is raised and the duplication is not detected. -/
theorem c9_duplicate_email_first_match (message : OperationMessage) (t : Int)
    (fresh_id : String) (store : Store) (s : Subscriber) (rest : List Subscriber)
    (hdup : store.filter (fun r => r.email == message.email) = s :: rest)
    (_hmore : rest ≠ []) :
    query_subscriber_by_email store message.email = some s ∧
    process_unsubscribe_operation message t store =
      (update_item store s.id
        (fun r => { r with status := some "inactive", updated_at := some t }), 1) ∧
    (if s.status.getD "inactive" == "inactive" then
      process_subscribe_operation message t fresh_id store =
        (update_item store s.id
          (fun r => { r with status := some "active", updated_at := some t }), 1)
    else
      process_subscribe_operation message t fresh_id store =
        (update_item store s.id (fun r => { r with updated_at := some t }), 1)) := by
  have hq : query_subscriber_by_email store message.email = some s := by
    simp [query_subscriber_by_email, hdup]
  refine ⟨hq, ?_, ?_⟩
  · simp [process_unsubscribe_operation, hq]
  · by_cases h : (s.status.getD "inactive" == "inactive") = true
    · rw [if_pos h]
      simp [process_subscribe_operation, hq, h]
    · rw [if_neg h]
      simp only [Bool.not_eq_true] at h
      simp [process_subscribe_operation, hq, h]

/-- Witness for C9 at a concrete input: a store holding two records for the
same email; the engine picks the first (`id = "u1"`). -/
theorem c9_duplicate_email_first_match_witness :
    query_subscriber_by_email
        [⟨"u1", "a@x.com", some "A", some "active", some 1, some 1, none, none⟩,
         ⟨"u2", "a@x.com", some "B", some "active", some 2, some 2, none, none⟩]
        "a@x.com" =
      some (⟨"u1", "a@x.com", some "A", some "active", some 1, some 1, none,
        none⟩ : Subscriber) ∧
    process_unsubscribe_operation
        (⟨"unsubscribe", "a@x.com", none, "ip", "ua", 0⟩ : OperationMessage) 5
        [⟨"u1", "a@x.com", some "A", some "active", some 1, some 1, none, none⟩,
         ⟨"u2", "a@x.com", some "B", some "active", some 2, some 2, none, none⟩] =
      (update_item
        [⟨"u1", "a@x.com", some "A", some "active", some 1, some 1, none, none⟩,
         ⟨"u2", "a@x.com", some "B", some "active", some 2, some 2, none, none⟩] "u1"
        (fun r => { r with status := some "inactive", updated_at := some 5 }), 1) ∧
    (if (some "active").getD "inactive" == "inactive" then
      process_subscribe_operation
          (⟨"unsubscribe", "a@x.com", none, "ip", "ua", 0⟩ : OperationMessage) 5 "f"
          [⟨"u1", "a@x.com", some "A", some "active", some 1, some 1, none, none⟩,
           ⟨"u2", "a@x.com", some "B", some "active", some 2, some 2, none, none⟩] =
        (update_item
          [⟨"u1", "a@x.com", some "A", some "active", some 1, some 1, none, none⟩,
           ⟨"u2", "a@x.com", some "B", some "active", some 2, some 2, none, none⟩] "u1"
          (fun r => { r with status := some "active", updated_at := some 5 }), 1)
    else
      process_subscribe_operation
          (⟨"unsubscribe", "a@x.com", none, "ip", "ua", 0⟩ : OperationMessage) 5 "f"
          [⟨"u1", "a@x.com", some "A", some "active", some 1, some 1, none, none⟩,
           ⟨"u2", "a@x.com", some "B", some "active", some 2, some 2, none, none⟩] =
        (update_item
           [⟨"u1", "a@x.com", some "A", some "active", some 1, some 1, none, none⟩,
            ⟨"u2", "a@x.com", some "B", some "active", some 2, some 2, none, none⟩] "u1"
          (fun r => { r with updated_at := some 5 }), 1)) :=
  c9_duplicate_email_first_match
    (⟨"unsubscribe", "a@x.com", none, "ip", "ua", 0⟩ : OperationMessage) 5 "f"
    [⟨"u1", "a@x.com", some "A", some "active", some 1, some 1, none, none⟩,
     ⟨"u2", "a@x.com", some "B", some "active", some 2, some 2, none, none⟩]
    (⟨"u1", "a@x.com", some "A", some "active", some 1, some 1, none, none⟩ : Subscriber)
    [⟨"u2", "a@x.com", some "B", some "active", some 2, some 2, none, none⟩]
    (by decide) (by decide)

theorem lambda_handler_spec (env : Nat → Env) (records : List SQSRecord) (store : Store) :
    lambda_handler env records store =
      ({ statusCode := 200
         processed := (run_records env 0 records ⟨0, 0, [], store⟩).processed
         failed := (run_records env 0 records ⟨0, 0, [], store⟩).failed
         failed_messages :=
           (run_records env 0 records ⟨0, 0, [], store⟩).failed_messages },
       (run_records env 0 records ⟨0, 0, [], store⟩).store) := rfl

theorem handle_record_count (env : Env) (st : HandlerState) (r : SQSRecord) :
    (handle_record env st r).processed + (handle_record env st r).failed =
      st.processed + st.failed + 1 := by
  unfold handle_record
  rcases r with ⟨rh, body⟩
  cases body with
  | jsonError e => dsimp only; omega
  | validationError e => dsimp only; omega
  | ok msg =>
    dsimp only
    split
    · cases env.store_error <;> (dsimp only; omega)
    · split
      · cases env.store_error <;> (dsimp only; omega)
      · dsimp only; omega

theorem handle_record_components (env : Env) (st : HandlerState) (r : SQSRecord) :
    handle_record env st r =
      { processed :=
          st.processed + (handle_record env ⟨0, 0, [], st.store⟩ r).processed
        failed := st.failed + (handle_record env ⟨0, 0, [], st.store⟩ r).failed
        failed_messages := st.failed_messages ++
          (handle_record env ⟨0, 0, [], st.store⟩ r).failed_messages
        store := (handle_record env ⟨0, 0, [], st.store⟩ r).store } := by
  unfold handle_record
  rcases r with ⟨rh, body⟩
  cases body with
  | jsonError e => simp
  | validationError e => simp
  | ok msg =>
    dsimp only
    split
    · cases env.store_error <;> simp
    · split
      · cases env.store_error <;> simp
      · simp

theorem run_records_append (env : Nat → Env) (idx : Nat) (xs ys : List SQSRecord)
    (st : HandlerState) :
    run_records env idx (xs ++ ys) st =
      run_records env (idx + xs.length) ys (run_records env idx xs st) := by
  induction xs generalizing idx st with
  | nil => simp [run_records]
  | cons x xs ih =>
    simp only [List.cons_append, run_records, List.length_cons, List.append_eq]
    rw [ih]
    have h : idx + 1 + xs.length = idx + (xs.length + 1) := by omega
    rw [h]

theorem run_records_env_congr (env env' : Nat → Env) (idx idx' : Nat)
    (records : List SQSRecord) (st : HandlerState)
    (h : ∀ k, k < records.length → env (idx + k) = env' (idx' + k)) :
    run_records env idx records st = run_records env' idx' records st := by
  induction records generalizing idx idx' st with
  | nil => rfl
  | cons r rs ih =>
    have h0 : env idx = env' idx' := by simpa using h 0 (by simp)
    simp only [run_records]
    rw [h0]
    exact ih (idx + 1) (idx' + 1) _ (fun k hk => by
      have e1 : idx + 1 + k = idx + (k + 1) := by omega
      have e2 : idx' + 1 + k = idx' + (k + 1) := by omega
      rw [e1, e2]
      exact h (k + 1) (by simpa using Nat.succ_lt_succ hk))

theorem run_records_shift (env : Nat → Env) (records : List SQSRecord) :
    ∀ (idx : Nat) (st : HandlerState),
    run_records env idx records st =
      { processed := st.processed +
          (run_records env idx records ⟨0, 0, [], st.store⟩).processed
        failed := st.failed + (run_records env idx records ⟨0, 0, [], st.store⟩).failed
        failed_messages := st.failed_messages ++
          (run_records env idx records ⟨0, 0, [], st.store⟩).failed_messages
        store := (run_records env idx records ⟨0, 0, [], st.store⟩).store } := by
  induction records with
  | nil => intro idx st; simp [run_records]
  | cons r rs ih =>
    intro idx st
    simp only [run_records]
    rw [ih (idx + 1) (handle_record (env idx) st r),
      ih (idx + 1) (handle_record (env idx) ⟨0, 0, [], st.store⟩ r)]
    rw [handle_record_components (env idx) st r]
    dsimp only
    simp [Nat.add_assoc, List.append_assoc]

theorem run_records_state_bump (env : Nat → Env) (idx : Nat) (rs : List SQSRecord)
    (st : HandlerState) (fm : FailedMessage) :
    (run_records env idx rs
        { st with failed := st.failed + 1
                  failed_messages := st.failed_messages ++ [fm] }).store =
      (run_records env idx rs st).store ∧
    (run_records env idx rs
        { st with failed := st.failed + 1
                  failed_messages := st.failed_messages ++ [fm] }).processed =
      (run_records env idx rs st).processed ∧
    (run_records env idx rs
        { st with failed := st.failed + 1
                  failed_messages := st.failed_messages ++ [fm] }).failed =
      (run_records env idx rs st).failed + 1 := by
  rw [run_records_shift env rs idx
      { st with failed := st.failed + 1
                failed_messages := st.failed_messages ++ [fm] },
    run_records_shift env rs idx st]
  dsimp only
  exact ⟨rfl, rfl, by omega⟩

theorem run_records_count (env : Nat → Env) (records : List SQSRecord) :
    ∀ (idx : Nat) (st : HandlerState),
    (run_records env idx records st).processed + (run_records env idx records st).failed =
      st.processed + st.failed + records.length := by
  induction records with
  | nil => intro idx st; simp [run_records]
  | cons r rs ih =>
    intro idx st
    simp only [run_records, List.length_cons]
    rw [ih]
    have := handle_record_count (env idx) st r
    omega

/-- C10: every record of the batch event is counted exactly once: the
returned processed count plus the returned failed count equals the number of
records in the event. -/
theorem c10_processed_plus_failed (env : Nat → Env) (records : List SQSRecord)
    (store : Store) :
    (lambda_handler env records store).1.processed +
        (lambda_handler env records store).1.failed = records.length := by
  rw [lambda_handler_spec]
  dsimp only
  simpa using run_records_count env records 0 ⟨0, 0, [], store⟩

/-- The failure entry a record contributes to `failed_messages`, if any:
decode and validation errors and store exceptions of recognized operations
are appended with the record's `receiptHandle`; a successfully processed
message and an unrecognized operation contribute none. -/
def failure_entry (env : Env) (r : SQSRecord) : Option FailedMessage :=
  match r.body with
  | ParseResult.jsonError e => some ⟨r.receiptHandle, e⟩
  | ParseResult.validationError e => some ⟨r.receiptHandle, e⟩
  | ParseResult.ok msg =>
    if msg.operation == "subscribe" || msg.operation == "unsubscribe" then
      match env.store_error with
      | some e => some ⟨r.receiptHandle, e⟩
      | none => none
    else none

/-- A record whose body decodes to a validated message with an operation that
is neither `subscribe` nor `unsubscribe`. -/
def unknown_operation (r : SQSRecord) : Bool :=
  match r.body with
  | ParseResult.ok msg => !(msg.operation == "subscribe" || msg.operation == "unsubscribe")
  | _ => false

/-- The failure entries of a batch, in order. -/
def expected_failures (env : Nat → Env) (idx : Nat) (records : List SQSRecord) :
    List FailedMessage :=
  match records with
  | [] => []
  | r :: rs => (failure_entry (env idx) r).toList ++ expected_failures env (idx + 1) rs

theorem handle_record_failures (env : Env) (st : HandlerState) (r : SQSRecord) :
    (handle_record env st r).failed_messages =
      st.failed_messages ++ (failure_entry env r).toList ∧
    (handle_record env st r).failed =
      st.failed + (failure_entry env r).toList.length +
        (if unknown_operation r then 1 else 0) := by
  unfold handle_record failure_entry unknown_operation
  rcases r with ⟨rh, body⟩
  cases body with
  | jsonError e => simp
  | validationError e => simp
  | ok msg =>
    dsimp only
    by_cases h1 : (msg.operation == "subscribe") = true
    · rw [if_pos h1]
      cases env.store_error <;> simp [h1]
    · rw [if_neg h1]
      by_cases h2 : (msg.operation == "unsubscribe") = true
      · rw [if_pos h2]
        cases env.store_error <;> simp [h1, h2]
      · rw [if_neg h2]
        simp only [Bool.not_eq_true] at h1 h2
        simp [h1, h2]

theorem run_records_failures (env : Nat → Env) (records : List SQSRecord) :
    ∀ (idx : Nat) (st : HandlerState),
    (run_records env idx records st).failed_messages =
      st.failed_messages ++ expected_failures env idx records ∧
    (run_records env idx records st).failed =
      st.failed + (expected_failures env idx records).length +
        records.countP unknown_operation := by
  induction records with
  | nil => intro idx st; simp [run_records, expected_failures]
  | cons r rs ih =>
    intro idx st
    simp only [run_records, expected_failures, List.countP_cons]
    obtain ⟨ih1, ih2⟩ := ih (idx + 1) (handle_record (env idx) st r)
    obtain ⟨h1, h2⟩ := handle_record_failures (env idx) st r
    constructor
    · rw [ih1, h1, List.append_assoc]
    · rw [ih2, h2]
      simp only [List.length_append, Option.toList]
      cases failure_entry (env idx) r <;> cases hu : unknown_operation r <;>
        simp [hu] <;> omega

/-- C7 (counterexample): a batch whose single message is schema-valid but
carries the unrecognized operation `"frobnicate"` is counted as failed, yet
the returned failures list is empty — no entry carries its handle. -/
theorem c7_unknown_operation_counterexample :
    (lambda_handler (fun _ => (⟨0, "f", none⟩ : Env))
        [⟨some "h1", ParseResult.ok ⟨"frobnicate", "a@x.com", none, "ip", "ua", 0⟩⟩]
        []).1.failed = 1 ∧
    (lambda_handler (fun _ => (⟨0, "f", none⟩ : Env))
        [⟨some "h1", ParseResult.ok ⟨"frobnicate", "a@x.com", none, "ip", "ua", 0⟩⟩]
        []).1.failed_messages = [] := by
  decide

/-- C7 (amended): the batch result carries the processed and failed counts;
every message that fails with a decode error, a validation error, or a store
exception on a recognized operation contributes exactly one failures entry,
in order, carrying that message's handle and error detail; messages with a
schema-valid but unrecognized operation are counted as failed but contribute
no failures entry, so the failed count equals the length of the failures
list plus the number of unrecognized-operation messages. -/
theorem c7_failures_reported (env : Nat → Env) (records : List SQSRecord)
    (store : Store) :
    (lambda_handler env records store).1.failed_messages =
      expected_failures env 0 records ∧
    (lambda_handler env records store).1.failed =
      (expected_failures env 0 records).length +
        records.countP unknown_operation := by
  rw [lambda_handler_spec]
  dsimp only
  obtain ⟨h1, h2⟩ := run_records_failures env records 0 ⟨0, 0, [], store⟩
  exact ⟨by simpa using h1, by simpa using h2⟩

/-- Concrete per-message environments for the three-message batch scenario:
engine clock 100/101/102, candidate uuids id0/id1/id2, no store failures. -/
def envC6 : Nat → Env
  | 0 => ⟨100, "id0", none⟩
  | 1 => ⟨101, "id1", none⟩
  | _ => ⟨102, "id2", none⟩

/-- C6: the batch handler always returns a result object (status 200) and
never raises; a malformed-JSON message only adds one to the failed count —
the final store, the processed count and the handling of every other message
are exactly as if the malformed message were absent from the batch; and a
batch of 3 intents whose 2nd is malformed JSON reports processed = 2,
failed = 1 with the 1st and 3rd applied to the store. -/
theorem c6_batch_isolation :
    (∀ (env : Nat → Env) (records : List SQSRecord) (store : Store),
      (lambda_handler env records store).1.statusCode = 200) ∧
    (∀ (env : Nat → Env) (rs1 rs2 : List SQSRecord) (bad : SQSRecord) (e : String)
        (store : Store), bad.body = ParseResult.jsonError e →
      (lambda_handler env (rs1 ++ bad :: rs2) store).2 =
          (lambda_handler (fun i => if i < rs1.length then env i else env (i + 1))
            (rs1 ++ rs2) store).2 ∧
        (lambda_handler env (rs1 ++ bad :: rs2) store).1.processed =
          (lambda_handler (fun i => if i < rs1.length then env i else env (i + 1))
            (rs1 ++ rs2) store).1.processed ∧
        (lambda_handler env (rs1 ++ bad :: rs2) store).1.failed =
          (lambda_handler (fun i => if i < rs1.length then env i else env (i + 1))
            (rs1 ++ rs2) store).1.failed + 1) ∧
    ((lambda_handler envC6
        [⟨some "h1", ParseResult.ok ⟨"subscribe", "a@x.com", some "A", "ip1", "ua1", 11⟩⟩,
         ⟨some "h2", ParseResult.jsonError "Expecting value"⟩,
         ⟨some "h3", ParseResult.ok ⟨"subscribe", "b@y.com", some "B", "ip3", "ua3", 13⟩⟩]
        []).1.processed = 2 ∧
      (lambda_handler envC6
        [⟨some "h1", ParseResult.ok ⟨"subscribe", "a@x.com", some "A", "ip1", "ua1", 11⟩⟩,
         ⟨some "h2", ParseResult.jsonError "Expecting value"⟩,
         ⟨some "h3", ParseResult.ok ⟨"subscribe", "b@y.com", some "B", "ip3", "ua3", 13⟩⟩]
        []).1.failed = 1 ∧
      (lambda_handler envC6
        [⟨some "h1", ParseResult.ok ⟨"subscribe", "a@x.com", some "A", "ip1", "ua1", 11⟩⟩,
         ⟨some "h2", ParseResult.jsonError "Expecting value"⟩,
         ⟨some "h3", ParseResult.ok ⟨"subscribe", "b@y.com", some "B", "ip3", "ua3", 13⟩⟩]
        []).2 =
        [⟨"id0", "a@x.com", some "A", some "active", some 100, some 100,
          some "ip1", some "ua1"⟩,
         ⟨"id2", "b@y.com", some "B", some "active", some 102, some 102,
          some "ip3", some "ua3"⟩]) := by
  refine ⟨fun env records store => rfl, ?_, by decide⟩
  intro env rs1 rs2 bad e store hbad
  have hstep : ∀ (ev : Env) (A : HandlerState), handle_record ev A bad =
      { A with failed := A.failed + 1
               failed_messages := A.failed_messages ++ [⟨bad.receiptHandle, e⟩] } := by
    intro ev A
    unfold handle_record
    rw [hbad]
  simp only [lambda_handler_spec]
  rw [run_records_append env 0 rs1 (bad :: rs2) ⟨0, 0, [], store⟩,
    run_records_append (fun i => if i < rs1.length then env i else env (i + 1))
      0 rs1 rs2 ⟨0, 0, [], store⟩]
  simp only [Nat.zero_add]
  rw [run_records_env_congr (fun i => if i < rs1.length then env i else env (i + 1)) env
      0 0 rs1 ⟨0, 0, [], store⟩ (fun k hk => by simp [hk])]
  rw [run_records_env_congr (fun i => if i < rs1.length then env i else env (i + 1)) env
      rs1.length (rs1.length + 1) rs2 (run_records env 0 rs1 ⟨0, 0, [], store⟩)
      (fun k hk => by
        have hlt : ¬ (rs1.length + k < rs1.length) := by omega
        dsimp only
        rw [if_neg hlt]
        congr 1
        omega)]
  simp only [run_records]
  rw [hstep]
  obtain ⟨hs, hp, hf⟩ := run_records_state_bump env (rs1.length + 1) rs2
    (run_records env 0 rs1 ⟨0, 0, [], store⟩) ⟨bad.receiptHandle, e⟩
  exact ⟨hs, hp, by rw [hf]⟩

/-- Witness for C6's isolation conjunct at a concrete input: a two-message
batch whose first message is malformed JSON behaves like the one-message
batch without it, plus one failure. -/
theorem c6_batch_isolation_witness :
    (lambda_handler envC6
        (([] : List SQSRecord) ++
          (⟨some "hb", ParseResult.jsonError "bad json"⟩ : SQSRecord) ::
            [⟨some "h3", ParseResult.ok ⟨"unsubscribe", "c@z.com", none, "ip", "ua", 1⟩⟩])
        []).2 =
      (lambda_handler
          (fun i => if i < ([] : List SQSRecord).length then envC6 i else envC6 (i + 1))
          (([] : List SQSRecord) ++
            [⟨some "h3", ParseResult.ok ⟨"unsubscribe", "c@z.com", none, "ip", "ua", 1⟩⟩])
          []).2 ∧
    (lambda_handler envC6
        (([] : List SQSRecord) ++
          (⟨some "hb", ParseResult.jsonError "bad json"⟩ : SQSRecord) ::
            [⟨some "h3", ParseResult.ok ⟨"unsubscribe", "c@z.com", none, "ip", "ua", 1⟩⟩])
        []).1.processed =
      (lambda_handler
          (fun i => if i < ([] : List SQSRecord).length then envC6 i else envC6 (i + 1))
          (([] : List SQSRecord) ++
            [⟨some "h3", ParseResult.ok ⟨"unsubscribe", "c@z.com", none, "ip", "ua", 1⟩⟩])
          []).1.processed ∧
    (lambda_handler envC6
        (([] : List SQSRecord) ++
          (⟨some "hb", ParseResult.jsonError "bad json"⟩ : SQSRecord) ::
            [⟨some "h3", ParseResult.ok ⟨"unsubscribe", "c@z.com", none, "ip", "ua", 1⟩⟩])
        []).1.failed =
      (lambda_handler
          (fun i => if i < ([] : List SQSRecord).length then envC6 i else envC6 (i + 1))
          (([] : List SQSRecord) ++
            [⟨some "h3", ParseResult.ok ⟨"unsubscribe", "c@z.com", none, "ip", "ua", 1⟩⟩])
          []).1.failed + 1 :=
  c6_batch_isolation.2.1 envC6 []
    [⟨some "h3", ParseResult.ok ⟨"unsubscribe", "c@z.com", none, "ip", "ua", 1⟩⟩]
    (⟨some "hb", ParseResult.jsonError "bad json"⟩ : SQSRecord) "bad json" [] rfl

end Newsletter
